import Mathlib

/-!
Verification of the SearchController component of the autocomplete widget.

The source is a single Angular component (class App) built around an rxjs
pipeline.  This file gives a shallow embedding of the component state and of
every handler the claims touch:

* component fields (searchTerm, results, selectedIndex, ...) become fields of
  the structure AppState;
* each event handler (onSearchInput, onKeyDown, navigateResults,
  handleSearchResponse, handleSearchError, retry, selectSuggestion,
  clearSearch, selectResult, dismissToast) becomes a pure function
  AppState -> AppState;
* the rxjs stream (debounceTime, distinctUntilChanged, tap, switchMap with
  timeout/retry/catchError) is embedded as explicit events: a value pushed to
  the subject is stored in pendingQuery, the debounce timer firing is the
  settle event, distinctUntilChanged keeps the previously settled value in
  lastSettled, and switchMap is embedded with a generation counter
  activeEpoch: the inner pipeline subscribed for a settled query carries the
  epoch it was created with, and an outcome (ultimate success after retries,
  or ultimate failure handed to catchError) is delivered only when its epoch
  is still the active one, which is exactly the unsubscribe-on-switch
  semantics of switchMap.  Network dispatches are recorded in the dispatched
  list, and values emitted through the resultSelected output are recorded in
  the emitted list.  DOM-only effects (scrolling, focus, the latency
  diagnostic) have no observable state in this model.
-/

/-- Embedding of the SearchResponse body of the search endpoint. -/
structure SearchResponse where
  query : String
  results : List String
deriving DecidableEq

/-- Embedding of the failure values reaching catchError: either the rxjs
TimeoutError raised by the timeout operator, or an HttpErrorResponse with a
status code and an optional error field of the JSON body.  A missing body or
a body without an error field are both modelled as none. -/
inductive SearchError where
  | timeoutErr : SearchError
  | http (status : Nat) (payload : Option String) : SearchError
deriving DecidableEq

/-- Keys handled by onKeyDown. -/
inductive Key where
  | arrowDown | arrowUp | enter | escape | tab | other
deriving DecidableEq

/-- Component state of the App class, together with the stream bookkeeping
and the observation logs described in the module comment. -/
structure AppState where
  searchTerm : String
  results : List String
  selectedValue : Option String
  selectedIndex : Int
  isLoading : Bool
  hasError : Bool
  hasSearched : Bool
  showDropdown : Bool
  showErrorToast : Bool
  errorMessage : String
  toastMessage : String
  errorCount : Nat
  requestCount : Nat
  activeEpoch : Nat
  lastSettled : Option String
  pendingQuery : Option String
  dispatched : List (Nat × String)
  emitted : List String
deriving DecidableEq

/-- Initial state created by the component constructor and field
initializers. -/
def initState : AppState :=
  { searchTerm := ""
    results := []
    selectedValue := none
    selectedIndex := -1
    isLoading := false
    hasError := false
    hasSearched := false
    showDropdown := false
    showErrorToast := false
    errorMessage := ""
    toastMessage := ""
    errorCount := 0
    requestCount := 0
    activeEpoch := 0
    lastSettled := none
    pendingQuery := none
    dispatched := []
    emitted := [] }

/-- Truthiness of term.trim() in the source: a string is blank when every
character is whitespace, so isBlank s = true exactly when the JS test
term.trim() is falsy. -/
def isBlank (s : String) : Bool :=
  s.data.all (fun c => c.isWhitespace)

/-- JS array read results[i] for an Int index: some value when 0 <= i < len,
otherwise none (undefined). -/
def resultAt (l : List String) (i : Int) : Option String :=
  if 0 ≤ i then l.get? i.toNat else none

/-- Embedding of selectResult: store the selection, mirror it into the input,
close the dropdown and emit it through the resultSelected output. -/
def selectResult (s : AppState) (r : String) : AppState :=
  { s with selectedValue := some r
           searchTerm := r
           showDropdown := false
           emitted := s.emitted ++ [r] }

/-- Embedding of handleSearchResponse.  Note the two guards of the source: a
non-empty results list always replaces the ResultSet and clears the error
flag; an empty list clears the ResultSet only when the current searchTerm is
non-blank; otherwise the ResultSet is left untouched. -/
def handleSearchResponse (s : AppState) (resp : SearchResponse) : AppState :=
  if resp.results ≠ [] then
    { s with isLoading := false, hasSearched := true
             results := resp.results, hasError := false }
  else if isBlank s.searchTerm = false then
    { s with isLoading := false, hasSearched := true, results := [] }
  else
    { s with isLoading := false, hasSearched := true }

/-- Embedding of the error categorization if-chain of handleSearchError:
instanceof TimeoutError, then status 0, then status 500, then status 404,
then a truthy error field of the body, otherwise the generic message. -/
def errMsgOf (err : SearchError) : String :=
  match err with
  | SearchError.timeoutErr => "Request timed out. Please try again."
  | SearchError.http status payload =>
    if status = 0 then "Cannot connect to server. Is it running?"
    else if status = 500 then "Server error. This might be the 15% random failure."
    else if status = 404 then "Search endpoint not found."
    else
      match payload with
      | some m => if m = "" then "An unexpected error occurred." else m
      | none => "An unexpected error occurred."

/-- Embedding of handleSearchError: set the error flag, bump the lifetime
error counter, clear the results, pick the message by the categorization
if-chain, and raise the toast once the counter reaches 3. -/
def handleSearchError (s : AppState) (err : SearchError) : AppState :=
  if 3 ≤ s.errorCount + 1 then
    { s with isLoading := false, hasError := true
             errorCount := s.errorCount + 1
             results := []
             errorMessage := errMsgOf err
             toastMessage := "Multiple errors detected. Check your connection."
             showErrorToast := true }
  else
    { s with isLoading := false, hasError := true
             errorCount := s.errorCount + 1
             results := []
             errorMessage := errMsgOf err }

/-- Embedding of onSearchInput: store the value, reset the cursor, clear the
error state when set, open the dropdown when the value is non-empty or no
search happened yet, and push the value into the debounced subject. -/
def onSearchInput (s : AppState) (value : String) : AppState :=
  { s with searchTerm := value
           selectedIndex := -1
           hasError := false
           errorMessage := if s.hasError then "" else s.errorMessage
           showDropdown :=
             if value ≠ "" ∨ s.hasSearched = false then true else s.showDropdown
           pendingQuery := some value }

/-- Embedding of navigateResults: no move on an empty ResultSet, otherwise
one step with wrap-around to -1 past the last item and to the last item
before -1. -/
def navigateResults (s : AppState) (dir : Int) : AppState :=
  if s.results.length = 0 then s
  else if s.selectedIndex + dir < -1 then
    { s with selectedIndex := (s.results.length : Int) - 1 }
  else if (s.results.length : Int) ≤ s.selectedIndex + dir then
    { s with selectedIndex := -1 }
  else
    { s with selectedIndex := s.selectedIndex + dir }

/-- Embedding of the Enter branch of onKeyDown: commit the result under the
cursor when results[selectedIndex] is truthy (it exists and is a non-empty
string), otherwise auto-commit the single result when exactly one is
present. -/
def enterCommit (s : AppState) : AppState :=
  if (resultAt s.results s.selectedIndex).getD ("") ≠ "" then
    selectResult s ((resultAt s.results s.selectedIndex).getD (""))
  else if s.results.length = 1 then
    selectResult s ((s.results.get? 0).getD (""))
  else s

/-- Embedding of onKeyDown.  When the dropdown is hidden, ArrowDown and Enter
only reopen it and return; every other key falls through to the switch. -/
def onKeyDown (s : AppState) (k : Key) : AppState :=
  if s.showDropdown = false ∧ (k = Key.arrowDown ∨ k = Key.enter) then
    { s with showDropdown := true }
  else
    match k with
    | Key.arrowDown => navigateResults s 1
    | Key.arrowUp => navigateResults s (-1)
    | Key.enter => enterCommit s
    | Key.escape => { s with showDropdown := false, selectedIndex := -1 }
    | Key.tab => { s with showDropdown := false }
    | Key.other => s

/-- Embedding of the settled end of the stream: the debounce timer fires for
the pending value.  distinctUntilChanged drops a value equal to the previous
settled one; otherwise the tap runs for non-blank values (loading flag, error
flag, request counter), switchMap switches to a fresh inner pipeline (the
epoch bump, which abandons the previous pipeline), and either an HTTP request
is dispatched (non-blank value) or the synchronous empty response of
the of operator is delivered at once (blank value). -/
def settleFn (s : AppState) : AppState :=
  match s.pendingQuery with
  | none => s
  | some v =>
    if s.lastSettled = some v then { s with pendingQuery := none }
    else if isBlank v = false then
      { s with pendingQuery := none
               lastSettled := some v
               isLoading := true
               hasError := false
               requestCount := s.requestCount + 1
               activeEpoch := s.activeEpoch + 1
               dispatched := s.dispatched ++ [(s.activeEpoch + 1, v)] }
    else
      handleSearchResponse
        { s with pendingQuery := none
                 lastSettled := some v
                 activeEpoch := s.activeEpoch + 1 }
        { query := v, results := [] }

/-- Delivery of the ultimate success of the inner pipeline created at epoch
e.  When a newer pipeline took over (the epoch differs), the inner
observable was unsubscribed by switchMap and nothing happens. -/
def netSuccess (s : AppState) (e : Nat) (resp : SearchResponse) : AppState :=
  if e = s.activeEpoch then handleSearchResponse s resp else s

/-- Delivery of the ultimate failure of the inner pipeline created at epoch
e, after the retries are exhausted: catchError runs handleSearchError and
replaces the failure with an empty response, which then reaches the
subscriber.  A superseded pipeline delivers nothing. -/
def netFailure (s : AppState) (e : Nat) (err : SearchError) : AppState :=
  if e = s.activeEpoch then
    handleSearchResponse (handleSearchError s err)
      { query := (s.lastSettled).getD (""), results := [] }
  else s

/-- Embedding of retry: for a non-blank searchTerm, clear the error state
optimistically and push the term back into the subject. -/
def retryFn (s : AppState) : AppState :=
  if isBlank s.searchTerm = false then
    { s with hasError := false, errorMessage := "", pendingQuery := some s.searchTerm }
  else s

/-- Embedding of selectSuggestion: mirror the suggestion into the input and
push it into the subject. -/
def selectSuggestion (s : AppState) (f : String) : AppState :=
  { s with searchTerm := f, pendingQuery := some f }

/-- Embedding of clearSearch. -/
def clearSearch (s : AppState) : AppState :=
  { s with searchTerm := ""
           results := []
           selectedIndex := -1
           hasSearched := false
           hasError := false
           selectedValue := none }

/-- Events of the component: handler invocations, the debounce timer, the
outcomes of the inner pipelines (tagged with the epoch of the pipeline that
produced them), the blur grace timer and the toast dismissal. -/
inductive Ev where
  | input (v : String)
  | settle
  | key (k : Key)
  | success (e : Nat) (resp : SearchResponse)
  | failure (e : Nat) (err : SearchError)
  | retryClick
  | suggest (f : String)
  | clearClick
  | blurFire
  | dismiss
deriving DecidableEq

/-- One step of the component under an event. -/
def step (s : AppState) : Ev → AppState
  | Ev.input v => onSearchInput s v
  | Ev.settle => settleFn s
  | Ev.key k => onKeyDown s k
  | Ev.success e resp => netSuccess s e resp
  | Ev.failure e err => netFailure s e err
  | Ev.retryClick => retryFn s
  | Ev.suggest f => selectSuggestion s f
  | Ev.clearClick => clearSearch s
  | Ev.blurFire => { s with showDropdown := false, selectedIndex := -1 }
  | Ev.dismiss => { s with showErrorToast := false }

/-- Run of the component over a list of events. -/
def run (s : AppState) (tr : List Ev) : AppState :=
  tr.foldl step s

/-- Epoch tag of a network outcome event, none for every other event. -/
def epochOf : Ev → Option Nat
  | Ev.success e _ => some e
  | Ev.failure e _ => some e
  | _ => none

/-- Modelled from the amended claim: the user-facing message is chosen by
the first matching cause in this precedence — timeout, then connection
refused / no status, then a fault with status exactly 500, then a 404, then
a structured error payload with a non-empty explicit message field used
verbatim, otherwise the generic unexpected-error message. -/
def claimedMessage (err : SearchError) : String :=
  match err with
  | SearchError.timeoutErr => "Request timed out. Please try again."
  | SearchError.http status payload =>
    if status = 0 then "Cannot connect to server. Is it running?"
    else if status = 500 then "Server error. This might be the 15% random failure."
    else if status = 404 then "Search endpoint not found."
    else
      match payload with
      | some m => if m = "" then "An unexpected error occurred." else m
      | none => "An unexpected error occurred."

/-! ### Result highlighting -/

/-- Lowercasing of a character list, modelling the case-insensitive flag of
the regex. -/
def lowerList (l : List Char) : List Char :=
  l.map Char.toLower

/-- Case-insensitive test that l starts with pat. -/
def ciStartsWith (pat l : List Char) : Bool :=
  lowerList (l.take pat.length) == lowerList pat

/-- Opening emphasis marker inserted by the replacement template. -/
def mOpen : List Char :=
  "<mark>".data

/-- Closing emphasis marker inserted by the replacement template. -/
def mClose : List Char :=
  "</mark>".data

/-- Embedding of text.replace(regex, template) for the global
case-insensitive regex built from the escaped term: a single left-to-right
scan over the text that, at each position, either wraps the literal
case-insensitive occurrence of the pattern starting there and resumes after
it, or copies one character.  The fuel argument (instantiated with the text
length, which the scan never exceeds) only makes the recursion
structural. -/
def hlCore (fuel : Nat) (pat : List Char) (l : List Char) : List Char :=
  match fuel, l with
  | _, [] => []
  | 0, l => l
  | fuel + 1, c :: rest =>
    if pat ≠ [] ∧ ciStartsWith pat (c :: rest) = true then
      mOpen ++ (c :: rest).take pat.length ++ mClose
        ++ hlCore fuel pat (rest.drop (pat.length - 1))
    else
      c :: hlCore fuel pat rest

/-- Embedding of highlightMatch: a blank term returns the text unchanged;
otherwise every match of the global case-insensitive regex built from the
escaped term — which matches exactly the literal term — is wrapped in the
emphasis markers. -/
def highlightMatch (text term : String) : String :=
  if isBlank term then text
  else String.mk (hlCore text.data.length term.data text.data)

/-- Characters of the character class replaced by escapeRegex in the
source. -/
def regexSpecials : List Char :=
  ['.', '*', '+', '?', '^', '$', '\x7b', '\x7d', '(', ')', '|', '[', ']', '\\']

/-- Embedding of escapeRegex: every character with a special meaning to the
regex engine is preceded by a backslash, so the pattern built from the
result matches the original string literally. -/
def escapeRegex (str : String) : String :=
  String.mk (str.data.foldr
    (fun c acc => if c ∈ regexSpecials then '\\' :: c :: acc else c :: acc) [])

/-- Specification relation for the highlighting scan, stated independently
of the implementation: the output decomposes the text left to right into
single characters copied unchanged — allowed only at positions where no
case-insensitive occurrence of the pattern starts — and wrapped segments,
each a non-empty case-insensitive occurrence of the pattern enclosed in the
emphasis markers. -/
inductive HLRel (pat : List Char) : List Char → List Char → Prop where
  | nil : HLRel pat [] []
  | skip (c : Char) (l o : List Char) :
      ciStartsWith pat (c :: l) = false →
      HLRel pat l o → HLRel pat (c :: l) (c :: o)
  | wrap (m l o : List Char) :
      m ≠ [] → lowerList m = lowerList pat →
      HLRel pat l o → HLRel pat (m ++ l) (mOpen ++ m ++ mClose ++ o)

/-! ### Epoch bookkeeping of the switch-latest pipeline -/

theorem handleSearchResponse_activeEpoch (s : AppState) (resp : SearchResponse) :
    (handleSearchResponse s resp).activeEpoch = s.activeEpoch := by
  unfold handleSearchResponse
  split
  · rfl
  · split <;> rfl

theorem handleSearchError_activeEpoch (s : AppState) (err : SearchError) :
    (handleSearchError s err).activeEpoch = s.activeEpoch := by
  unfold handleSearchError
  split <;> rfl

theorem navigateResults_activeEpoch (s : AppState) (dir : Int) :
    (navigateResults s dir).activeEpoch = s.activeEpoch := by
  unfold navigateResults
  split
  · rfl
  · split
    · rfl
    · split <;> rfl

theorem step_epoch_mono (s : AppState) (ev : Ev) :
    s.activeEpoch ≤ (step s ev).activeEpoch := by
  cases ev with
  | input v => exact Nat.le_refl _
  | settle =>
    show s.activeEpoch ≤ (settleFn s).activeEpoch
    unfold settleFn
    cases hp : s.pendingQuery with
    | none => exact Nat.le_refl _
    | some v =>
      simp only []
      split
      · exact Nat.le_refl _
      · split
        · exact Nat.le_succ _
        · rw [handleSearchResponse_activeEpoch]
          exact Nat.le_succ _
  | key k =>
    show s.activeEpoch ≤ (onKeyDown s k).activeEpoch
    unfold onKeyDown
    split
    · exact Nat.le_refl _
    · cases k with
      | arrowDown =>
        show s.activeEpoch ≤ (navigateResults s 1).activeEpoch
        rw [navigateResults_activeEpoch]
      | arrowUp =>
        show s.activeEpoch ≤ (navigateResults s (-1)).activeEpoch
        rw [navigateResults_activeEpoch]
      | enter =>
        show s.activeEpoch ≤ (enterCommit s).activeEpoch
        unfold enterCommit
        split
        · exact Nat.le_refl _
        · split <;> exact Nat.le_refl _
      | escape => exact Nat.le_refl _
      | tab => exact Nat.le_refl _
      | other => exact Nat.le_refl _
  | success e resp =>
    show s.activeEpoch ≤ (netSuccess s e resp).activeEpoch
    unfold netSuccess
    split
    · rw [handleSearchResponse_activeEpoch]
    · exact Nat.le_refl _
  | failure e err =>
    show s.activeEpoch ≤ (netFailure s e err).activeEpoch
    unfold netFailure
    split
    · rw [handleSearchResponse_activeEpoch, handleSearchError_activeEpoch]
    · exact Nat.le_refl _
  | retryClick =>
    show s.activeEpoch ≤ (retryFn s).activeEpoch
    unfold retryFn
    split <;> exact Nat.le_refl _
  | suggest f => exact Nat.le_refl _
  | clearClick => exact Nat.le_refl _
  | blurFire => exact Nat.le_refl _
  | dismiss => exact Nat.le_refl _

theorem run_epoch_mono (tr : List Ev) (s : AppState) :
    s.activeEpoch ≤ (run s tr).activeEpoch := by
  induction tr generalizing s with
  | nil => exact Nat.le_refl _
  | cons ev rest ih =>
    exact Nat.le_trans (step_epoch_mono s ev) (ih (step s ev))

/-- A network outcome whose epoch is not the active one is dropped: the
inner pipeline it came from was unsubscribed by switchMap. -/
theorem stale_event_step (s : AppState) (ev : Ev) (e : Nat)
    (hev : epochOf ev = some e) (hne : e ≠ s.activeEpoch) :
    step s ev = s := by
  cases ev with
  | success f resp =>
    have hf : f = e := by
      simpa [epochOf] using hev
    show netSuccess s f resp = s
    unfold netSuccess
    rw [if_neg (by rw [hf]; exact hne)]
  | failure f err =>
    have hf : f = e := by
      simpa [epochOf] using hev
    show netFailure s f err = s
    unfold netFailure
    rw [if_neg (by rw [hf]; exact hne)]
  | input v => simp [epochOf] at hev
  | settle => simp [epochOf] at hev
  | key k => simp [epochOf] at hev
  | retryClick => simp [epochOf] at hev
  | suggest f => simp [epochOf] at hev
  | clearClick => simp [epochOf] at hev
  | blurFire => simp [epochOf] at hev
  | dismiss => simp [epochOf] at hev

/-- Settling a pending value that differs from the previously settled one
makes switchMap switch: the epoch is bumped. -/
theorem settle_bumps_epoch (s : AppState) (v : String)
    (h1 : s.pendingQuery = some v) (h2 : s.lastSettled ≠ some v) :
    (step s Ev.settle).activeEpoch = s.activeEpoch + 1 := by
  show (settleFn s).activeEpoch = s.activeEpoch + 1
  unfold settleFn
  rw [h1]
  simp only []
  rw [if_neg h2]
  split
  · rfl
  · rw [handleSearchResponse_activeEpoch]

/-- C1: cancellation by supersession.  Once a new settled query arrives (a
pending value different from the previously settled one, so that
distinctUntilChanged passes it and switchMap switches), every pipeline
created earlier — its epoch e is at most the epoch active before the
switch — is abandoned: any of its outcomes, success or ultimate failure
after its pending retries, delivered at any later point of any later event
sequence, leaves the whole component state untouched, so only the pipeline
of the most recently settled query can update ResultSet or ErrorState. -/
theorem c1_supersession (s : AppState) (v : String) (e : Nat)
    (h1 : s.pendingQuery = some v) (h2 : s.lastSettled ≠ some v)
    (h3 : e ≤ s.activeEpoch)
    (t1 t2 : List Ev) (ev : Ev) (hev : epochOf ev = some e) :
    run (step s Ev.settle) (t1 ++ ev :: t2) = run (step s Ev.settle) (t1 ++ t2) := by
  have hbump : (step s Ev.settle).activeEpoch = s.activeEpoch + 1 :=
    settle_bumps_epoch s v h1 h2
  have hmono : (step s Ev.settle).activeEpoch ≤ (run (step s Ev.settle) t1).activeEpoch :=
    run_epoch_mono t1 (step s Ev.settle)
  have hne : e ≠ (run (step s Ev.settle) t1).activeEpoch := by omega
  show (t1 ++ ev :: t2).foldl step (step s Ev.settle)
      = (t1 ++ t2).foldl step (step s Ev.settle)
  rw [List.foldl_append, List.foldl_append, List.foldl_cons,
    stale_event_step (t1.foldl step (step s Ev.settle)) ev e hev hne]

/-- Witness for C1: after the query a has settled and ab is pending, the
late ultimate failure of the superseded pipeline of epoch 1 changes nothing
once ab settles. -/
theorem c1_witness :
    run (step (run initState [Ev.input ("a"), Ev.settle, Ev.input ("ab")]) Ev.settle)
        [Ev.failure 1 (SearchError.http 500 none)]
      = run (step (run initState [Ev.input ("a"), Ev.settle, Ev.input ("ab")]) Ev.settle) [] :=
  c1_supersession _ ("ab") 1 (by decide) (by decide) (by decide)
    [] [] _ rfl

/-! ### Navigation cursor: the claimed invariant and what actually holds -/

/-- Counterexample to C2: the claimed invariant -1 <= cursor < len(ResultSet)
is not preserved by handleSearchResponse.  After the query ab returns three
results, the user types abc and presses Down three times (cursor 2); the
response for abc then replaces the ResultSet by a single result without
resetting the cursor, so cursor = 2 while len(ResultSet) = 1 — reached with
input, keyboard and network-callback handlers only. -/
theorem c2_counterexample :
    (run initState
      [Ev.input ("ab"), Ev.settle, Ev.success 1 ⟨"ab", ["ex1", "ex2", "ex3"]⟩,
       Ev.input ("abc"), Ev.key Key.arrowDown, Ev.key Key.arrowDown, Ev.key Key.arrowDown,
       Ev.settle, Ev.success 2 ⟨"abc", ["only"]⟩]).results.length = 1 ∧
    (run initState
      [Ev.input ("ab"), Ev.settle, Ev.success 1 ⟨"ab", ["ex1", "ex2", "ex3"]⟩,
       Ev.input ("abc"), Ev.key Key.arrowDown, Ev.key Key.arrowDown, Ev.key Key.arrowDown,
       Ev.settle, Ev.success 2 ⟨"abc", ["only"]⟩]).selectedIndex = 2 := by
  decide

theorem handleSearchResponse_selectedIndex (s : AppState) (resp : SearchResponse) :
    (handleSearchResponse s resp).selectedIndex = s.selectedIndex := by
  unfold handleSearchResponse
  split
  · rfl
  · split <;> rfl

theorem handleSearchError_selectedIndex (s : AppState) (err : SearchError) :
    (handleSearchError s err).selectedIndex = s.selectedIndex := by
  unfold handleSearchError
  split <;> rfl

theorem navigateResults_selectedIndex_range (s : AppState) (dir : Int)
    (h : s.results ≠ []) :
    -1 ≤ (navigateResults s dir).selectedIndex ∧
    (navigateResults s dir).selectedIndex < (s.results.length : Int) := by
  have hlen : s.results.length ≠ 0 := fun hc => h (List.length_eq_zero.mp hc)
  have hpos : 1 ≤ s.results.length := Nat.pos_of_ne_zero hlen
  unfold navigateResults
  rw [if_neg hlen]
  split
  · constructor
    · show (-1 : Int) ≤ (s.results.length : Int) - 1
      omega
    · show (s.results.length : Int) - 1 < (s.results.length : Int)
      omega
  · split
    · constructor
      · show (-1 : Int) ≤ -1
        omega
      · show (-1 : Int) < (s.results.length : Int)
        omega
    · constructor
      · show (-1 : Int) ≤ s.selectedIndex + dir
        omega
      · show s.selectedIndex + dir < (s.results.length : Int)
        omega

theorem step_selectedIndex_lb (s : AppState) (ev : Ev)
    (h : -1 ≤ s.selectedIndex) : -1 ≤ (step s ev).selectedIndex := by
  cases ev with
  | input v => exact (by omega : (-1 : Int) ≤ -1)
  | settle =>
    show -1 ≤ (settleFn s).selectedIndex
    unfold settleFn
    cases hp : s.pendingQuery with
    | none => exact h
    | some v =>
      simp only []
      split
      · exact h
      · split
        · exact h
        · rw [handleSearchResponse_selectedIndex]
          exact h
  | key k =>
    show -1 ≤ (onKeyDown s k).selectedIndex
    unfold onKeyDown
    split
    · exact h
    · cases k with
      | arrowDown =>
        show -1 ≤ (navigateResults s 1).selectedIndex
        by_cases hr : s.results = []
        · unfold navigateResults
          rw [if_pos (by rw [hr]; rfl)]
          exact h
        · exact (navigateResults_selectedIndex_range s 1 hr).1
      | arrowUp =>
        show -1 ≤ (navigateResults s (-1)).selectedIndex
        by_cases hr : s.results = []
        · unfold navigateResults
          rw [if_pos (by rw [hr]; rfl)]
          exact h
        · exact (navigateResults_selectedIndex_range s (-1) hr).1
      | enter =>
        show -1 ≤ (enterCommit s).selectedIndex
        unfold enterCommit
        split
        · exact h
        · split
          · exact h
          · exact h
      | escape => exact (by omega : (-1 : Int) ≤ -1)
      | tab => exact h
      | other => exact h
  | success e resp =>
    show -1 ≤ (netSuccess s e resp).selectedIndex
    unfold netSuccess
    split
    · rw [handleSearchResponse_selectedIndex]
      exact h
    · exact h
  | failure e err =>
    show -1 ≤ (netFailure s e err).selectedIndex
    unfold netFailure
    split
    · rw [handleSearchResponse_selectedIndex, handleSearchError_selectedIndex]
      exact h
    · exact h
  | retryClick =>
    show -1 ≤ (retryFn s).selectedIndex
    unfold retryFn
    split <;> exact h
  | suggest f => exact h
  | clearClick => exact (by omega : (-1 : Int) ≤ -1)
  | blurFire => exact (by omega : (-1 : Int) ≤ -1)
  | dismiss => exact h

theorem run_selectedIndex_lb (tr : List Ev) (s : AppState)
    (h : -1 ≤ s.selectedIndex) : -1 ≤ (run s tr).selectedIndex := by
  induction tr generalizing s with
  | nil => exact h
  | cons ev rest ih => exact ih (step s ev) (step_selectedIndex_lb s ev h)

/-- C2 as amended: in every state reachable from the initial one by any
sequence of handler invocations the cursor satisfies -1 <= cursor; every
input event resets the cursor to -1; and every Down/Up navigation while the
dropdown is shown over a non-empty ResultSet lands the cursor inside
-1 <= cursor < len(ResultSet).  The full claimed invariant
cursor < len(ResultSet) is, however, not preserved by a search response
that replaces the ResultSet with a shorter or empty list: the response
handler leaves the cursor unchanged (see the counterexample). -/
theorem c2_amended (tr : List Ev) (s : AppState) (v : String) (k : Key) :
    (-1 ≤ (run initState tr).selectedIndex)
    ∧ ((step s (Ev.input v)).selectedIndex = -1)
    ∧ (s.showDropdown = true → s.results ≠ [] →
        (k = Key.arrowDown ∨ k = Key.arrowUp) →
        -1 ≤ (step s (Ev.key k)).selectedIndex ∧
        (step s (Ev.key k)).selectedIndex < (s.results.length : Int)) := by
  refine ⟨run_selectedIndex_lb tr initState (by decide), rfl, ?_⟩
  intro hd hr hk
  show -1 ≤ (onKeyDown s k).selectedIndex ∧
      (onKeyDown s k).selectedIndex < (s.results.length : Int)
  unfold onKeyDown
  rw [if_neg (by rw [hd]; simp)]
  rcases hk with hk | hk <;> subst hk
  · exact navigateResults_selectedIndex_range s 1 hr
  · exact navigateResults_selectedIndex_range s (-1) hr

/-- Witness for the amended C2: a Down press over a two-element ResultSet
in a reached state keeps the cursor inside the invariant range. -/
theorem c2_witness :
    -1 ≤ (step (run initState [Ev.input ("a"), Ev.settle, Ev.success 1 ⟨"a", ["x", "y"]⟩])
            (Ev.key Key.arrowDown)).selectedIndex ∧
    (step (run initState [Ev.input ("a"), Ev.settle, Ev.success 1 ⟨"a", ["x", "y"]⟩])
            (Ev.key Key.arrowDown)).selectedIndex <
      ((run initState [Ev.input ("a"), Ev.settle, Ev.success 1 ⟨"a", ["x", "y"]⟩]).results.length : Int) :=
  (c2_amended [] (run initState [Ev.input ("a"), Ev.settle, Ev.success 1 ⟨"a", ["x", "y"]⟩])
      ("") Key.arrowDown).2.2 (by decide) (by decide) (Or.inl rfl)

/-! ### Settled blank query, success path, manual retry -/

/-- C3, behaviour of the code at the failing input: after the query ab
returned the result apple, the user clears the input and the empty query
settles.  No network request is dispatched and the error flag stays
cleared, as the claim states, but the ResultSet is NOT replaced by the
empty sequence: handleSearchResponse drops the empty clear response
because the current searchTerm is blank, so the stale result apple
survives. -/
theorem c3_clear_keeps_results :
    (run initState [Ev.input ("ab"), Ev.settle, Ev.success 1 ⟨"ab", ["apple"]⟩,
        Ev.input (""), Ev.settle]).results = ["apple"] ∧
    (run initState [Ev.input ("ab"), Ev.settle, Ev.success 1 ⟨"ab", ["apple"]⟩,
        Ev.input (""), Ev.settle]).dispatched = [(1, "ab")] ∧
    (run initState [Ev.input ("ab"), Ev.settle, Ev.success 1 ⟨"ab", ["apple"]⟩,
        Ev.input (""), Ev.settle]).hasError = false := by
  decide

/-- Counterexample to C4: a settled non-empty query whose pipeline
ultimately succeeds neither clears the whole ErrorState nor always leaves
the ResultSet equal to the returned matches.  First trace: after the query
a fails (message set to the server-error text), the user picks the
suggestion apple; its pipeline succeeds, replaces the ResultSet and clears
the error flag, but the error message field still holds the old
server-error text.  Second trace: the query ab settles and dispatches,
then the user clears the input to the empty string; the success response
of ab with the empty match list arrives while its pipeline is still the
active one (epoch 2 — nothing superseded it, since the empty query has not
settled yet), but the response handler drops it because the current
searchTerm is blank at delivery time, so the ResultSet keeps the stale
value apple instead of becoming empty. -/
theorem c4_counterexample :
    (run initState [Ev.input ("a"), Ev.settle, Ev.failure 1 (SearchError.http 500 none),
        Ev.suggest ("apple"), Ev.settle, Ev.success 2 ⟨"apple", ["apple"]⟩]).hasError = false ∧
    (run initState [Ev.input ("a"), Ev.settle, Ev.failure 1 (SearchError.http 500 none),
        Ev.suggest ("apple"), Ev.settle, Ev.success 2 ⟨"apple", ["apple"]⟩]).results = ["apple"] ∧
    (run initState [Ev.input ("a"), Ev.settle, Ev.failure 1 (SearchError.http 500 none),
        Ev.suggest ("apple"), Ev.settle, Ev.success 2 ⟨"apple", ["apple"]⟩]).errorMessage
      = "Server error. This might be the 15% random failure." ∧
    (run initState [Ev.input ("a"), Ev.settle, Ev.success 1 ⟨"a", ["apple"]⟩,
        Ev.input ("ab"), Ev.settle, Ev.input (""), Ev.success 2 ⟨"ab", []⟩]).results = ["apple"] ∧
    (run initState [Ev.input ("a"), Ev.settle, Ev.success 1 ⟨"a", ["apple"]⟩,
        Ev.input ("ab"), Ev.settle, Ev.input (""), Ev.success 2 ⟨"ab", []⟩]).activeEpoch = 2 ∧
    (run initState [Ev.input ("a"), Ev.settle, Ev.success 1 ⟨"a", ["apple"]⟩,
        Ev.input ("ab"), Ev.settle, Ev.input (""), Ev.success 2 ⟨"ab", []⟩]).lastSettled = some ("ab") := by
  decide

/-- C4 as amended: when the ultimate success response of a pipeline is
delivered while that pipeline is still the active one, the error message is
never cleared by the success path; a non-empty returned match list replaces
the ResultSet exactly and clears the error flag; an empty returned list
clears the ResultSet only when the current searchTerm is non-blank at
delivery time, leaving the error flag untouched (it is false in the
undisturbed flow, because the dispatch tap cleared it); and when the
searchTerm is blank at delivery time the empty response is dropped: the
ResultSet keeps its previous value.  The statement covers delivery at any
later point, whatever events happened since the query settled. -/
theorem c4_amended (s : AppState) (resp : SearchResponse) (e : Nat)
    (he : e = s.activeEpoch) :
    ((step s (Ev.success e resp)).errorMessage = s.errorMessage)
    ∧ (resp.results ≠ [] →
        (step s (Ev.success e resp)).results = resp.results ∧
        (step s (Ev.success e resp)).hasError = false)
    ∧ (resp.results = [] → isBlank s.searchTerm = false →
        (step s (Ev.success e resp)).results = [] ∧
        (step s (Ev.success e resp)).hasError = s.hasError)
    ∧ (resp.results = [] → isBlank s.searchTerm = true →
        (step s (Ev.success e resp)).results = s.results ∧
        (step s (Ev.success e resp)).hasError = s.hasError) := by
  have hstep : step s (Ev.success e resp) = handleSearchResponse s resp := by
    show netSuccess s e resp = handleSearchResponse s resp
    unfold netSuccess
    rw [if_pos he]
  rw [hstep]
  refine ⟨?_, ?_, ?_, ?_⟩
  · unfold handleSearchResponse
    split
    · rfl
    · split <;> rfl
  · intro h
    unfold handleSearchResponse
    rw [if_pos h]
    exact ⟨rfl, rfl⟩
  · intro h hb
    unfold handleSearchResponse
    rw [if_neg (by rw [h]; simp), if_pos hb]
    exact ⟨rfl, rfl⟩
  · intro h hb
    unfold handleSearchResponse
    rw [if_neg (by rw [h]; simp), if_neg (by rw [hb]; simp)]
    exact ⟨rfl, rfl⟩

/-- Witness for the amended C4: the query ab settles and its pipeline
succeeds with the empty match list while the searchTerm is still ab, so
the ResultSet is cleared, the error flag keeps its (false) value and the
error message is untouched. -/
theorem c4_witness :
    (step (step (run initState [Ev.input ("ab")]) Ev.settle)
        (Ev.success 1 ⟨"ab", []⟩)).results = [] ∧
    (step (step (run initState [Ev.input ("ab")]) Ev.settle)
        (Ev.success 1 ⟨"ab", []⟩)).hasError
      = (step (run initState [Ev.input ("ab")]) Ev.settle).hasError ∧
    (step (step (run initState [Ev.input ("ab")]) Ev.settle)
        (Ev.success 1 ⟨"ab", []⟩)).errorMessage
      = (step (run initState [Ev.input ("ab")]) Ev.settle).errorMessage :=
  ⟨((c4_amended (step (run initState [Ev.input ("ab")]) Ev.settle) ⟨"ab", []⟩ 1
      (by decide)).2.2.1 rfl (by decide)).1,
   ((c4_amended (step (run initState [Ev.input ("ab")]) Ev.settle) ⟨"ab", []⟩ 1
      (by decide)).2.2.1 rfl (by decide)).2,
   (c4_amended (step (run initState [Ev.input ("ab")]) Ev.settle) ⟨"ab", []⟩ 1
      (by decide)).1⟩

/-- C5, behaviour of the code at the failing input: the query app settles,
its pipeline ultimately fails, and the user clicks retry.  The handler does
clear the error flag and message optimistically, but the value it pushes
back into the stream is textually identical to the previously settled one,
so distinctUntilChanged suppresses it after the debounce: no new network
request is dispatched for the retried query, contradicting the claim that
the last query is re-issued through the full pipeline. -/
theorem c5_retry_suppressed :
    (run initState [Ev.input ("app"), Ev.settle, Ev.failure 1 (SearchError.http 500 none),
        Ev.retryClick, Ev.settle]).hasError = false ∧
    (run initState [Ev.input ("app"), Ev.settle, Ev.failure 1 (SearchError.http 500 none),
        Ev.retryClick, Ev.settle]).errorMessage = "" ∧
    (run initState [Ev.input ("app"), Ev.settle, Ev.failure 1 (SearchError.http 500 none),
        Ev.retryClick, Ev.settle]).dispatched = [(1, "app")] ∧
    (run initState [Ev.input ("app"), Ev.settle, Ev.failure 1 (SearchError.http 500 none),
        Ev.retryClick, Ev.settle]).requestCount = 1 := by
  decide

/-! ### Error message precedence -/

/-- Counterexample to C6: the claim maps ANY server-side fault with a 5xx
status to the generic server-error message, but the code compares the
status with 500 exactly.  A 503 without a body yields the generic
unexpected-error message instead; a 502 with a structured error body yields
the body message instead of the server-error message; and a structured body
whose message field is the empty string is falsy in JS, so it is not used
verbatim. -/
theorem c6_counterexample :
    (handleSearchError initState (SearchError.http 503 none)).errorMessage
      = "An unexpected error occurred." ∧
    (handleSearchError initState (SearchError.http 502 (some ("upstream exploded")))).errorMessage
      = "upstream exploded" ∧
    (handleSearchError initState (SearchError.http 418 (some ("")))).errorMessage
      = "An unexpected error occurred." := by
  decide

/-- C6 as amended: for every ultimate failure, the message stored by
handleSearchError is exactly the one prescribed by the amended precedence
(with status exactly 500 in place of any 5xx, and a non-empty message field
required for the verbatim case). -/
theorem c6_amended (s : AppState) (err : SearchError) :
    (handleSearchError s err).errorMessage = claimedMessage err := by
  have hmsg : (handleSearchError s err).errorMessage = errMsgOf err := by
    unfold handleSearchError
    split <;> rfl
  rw [hmsg]
  cases err with
  | timeoutErr => rfl
  | http status payload =>
    unfold errMsgOf claimedMessage
    rfl

/-! ### Keyboard navigation wrap laws -/

/-- C7: over a non-empty ResultSet, navigating Down from the last index
wraps the cursor to -1, navigating Up from -1 wraps it to the last index,
and from a cursor strictly inside the range Down moves to cursor + 1 and Up
to cursor - 1. -/
theorem c7_wrap_laws (s : AppState) (h : s.results ≠ []) :
    (s.selectedIndex = (s.results.length : Int) - 1 →
        (navigateResults s 1).selectedIndex = -1)
    ∧ (s.selectedIndex = -1 →
        (navigateResults s (-1)).selectedIndex = (s.results.length : Int) - 1)
    ∧ (∀ c : Int, 0 ≤ c → c ≤ (s.results.length : Int) - 2 → s.selectedIndex = c →
        (navigateResults s 1).selectedIndex = c + 1 ∧
        (navigateResults s (-1)).selectedIndex = c - 1) := by
  have hlen : s.results.length ≠ 0 := fun hc => h (List.length_eq_zero.mp hc)
  have hpos : 1 ≤ s.results.length := Nat.pos_of_ne_zero hlen
  refine ⟨?_, ?_, ?_⟩
  · intro hc
    unfold navigateResults
    rw [if_neg hlen, if_neg (by omega), if_pos (by omega)]
  · intro hc
    unfold navigateResults
    rw [if_neg hlen, if_pos (by omega)]
  · intro c h0 h2 hc
    constructor
    · unfold navigateResults
      rw [if_neg hlen, if_neg (by omega), if_neg (by omega)]
      show s.selectedIndex + 1 = c + 1
      omega
    · unfold navigateResults
      rw [if_neg hlen, if_neg (by omega), if_neg (by omega)]
      show s.selectedIndex + -1 = c - 1
      omega

/-- Witness for C7: on a three-element ResultSet with the cursor on the
last item, Down wraps to -1, and from the inside cursor 0 Down and Up move
by one. -/
theorem c7_witness :
    (navigateResults { initState with results := ["r1", "r2", "r3"], selectedIndex := 2 } 1).selectedIndex = -1 ∧
    (navigateResults { initState with results := ["r1", "r2", "r3"], selectedIndex := 0 } 1).selectedIndex = 1 ∧
    (navigateResults { initState with results := ["r1", "r2", "r3"], selectedIndex := 0 } (-1)).selectedIndex = -1 := by
  refine ⟨(c7_wrap_laws _ (by decide)).1 (by decide), ?_, ?_⟩
  · exact ((c7_wrap_laws { initState with results := ["r1", "r2", "r3"], selectedIndex := 0 }
      (by decide)).2.2 0 (by decide) (by decide) (by decide)).1
  · exact ((c7_wrap_laws { initState with results := ["r1", "r2", "r3"], selectedIndex := 0 }
      (by decide)).2.2 0 (by decide) (by decide) (by decide)).2

/-! ### Enter commit semantics -/

/-- Counterexample to C8: Enter with cursor >= 0 does not always commit.
With a stale cursor 5 over a two-element ResultSet nothing is committed,
no selection event is emitted and the dropdown stays open; and with the
cursor on an existing but empty-string result (falsy in JS) nothing is
committed either, although the cursor is a valid index. -/
theorem c8_counterexample :
    (onKeyDown { initState with showDropdown := true, results := ["alpha", "beta"], selectedIndex := 5 } Key.enter).emitted = [] ∧
    (onKeyDown { initState with showDropdown := true, results := ["alpha", "beta"], selectedIndex := 5 } Key.enter).selectedValue = none ∧
    (onKeyDown { initState with showDropdown := true, results := ["alpha", "beta"], selectedIndex := 5 } Key.enter).showDropdown = true ∧
    (onKeyDown { initState with showDropdown := true, results := ["", "beta"], selectedIndex := 0 } Key.enter).emitted = [] ∧
    (onKeyDown { initState with showDropdown := true, results := ["", "beta"], selectedIndex := 0 } Key.enter).selectedValue = none := by
  decide

/-- C8 as amended: with the dropdown shown, Enter commits the result under
the cursor and closes the dropdown whenever the cursor indexes an existing
non-empty result string — in particular this explicit cursor selection
takes priority when the ResultSet also has exactly one element — and Enter
auto-commits the single result when the ResultSet has exactly one element
and the cursor does not index a non-empty result (for instance cursor
-1). -/
theorem c8_amended (s : AppState) (hd : s.showDropdown = true) :
    (∀ r : String, resultAt s.results s.selectedIndex = some r → r ≠ "" →
        (onKeyDown s Key.enter).selectedValue = some r ∧
        (onKeyDown s Key.enter).showDropdown = false ∧
        (onKeyDown s Key.enter).emitted = s.emitted ++ [r] ∧
        (onKeyDown s Key.enter).searchTerm = r)
    ∧ (∀ r : String, s.results = [r] →
        (resultAt s.results s.selectedIndex).getD ("") = "" →
        (onKeyDown s Key.enter).selectedValue = some r ∧
        (onKeyDown s Key.enter).showDropdown = false ∧
        (onKeyDown s Key.enter).emitted = s.emitted ++ [r]) := by
  have hkd : onKeyDown s Key.enter = enterCommit s := by
    unfold onKeyDown
    rw [if_neg (by rw [hd]; simp)]
  constructor
  · intro r hr hne
    rw [hkd]
    unfold enterCommit
    rw [if_pos (by rw [hr]; exact hne)]
    rw [hr]
    exact ⟨rfl, rfl, rfl, rfl⟩
  · intro r hr hfalsy
    rw [hkd]
    unfold enterCommit
    rw [if_neg (by rw [hfalsy]; simp), if_pos (by rw [hr]; rfl)]
    rw [hr]
    exact ⟨rfl, rfl, rfl⟩

/-- Witness for the amended C8: the spec scenario — the ResultSet is the
single result apple and the cursor is -1; Enter auto-commits apple, closes
the dropdown and emits the selection event. -/
theorem c8_witness :
    (onKeyDown { initState with showDropdown := true, results := ["apple"] }
        Key.enter).selectedValue = some ("apple") ∧
    (onKeyDown { initState with showDropdown := true, results := ["apple"] }
        Key.enter).showDropdown = false ∧
    (onKeyDown { initState with showDropdown := true, results := ["apple"] }
        Key.enter).emitted = [] ++ ["apple"] :=
  (c8_amended { initState with showDropdown := true, results := ["apple"] }
      (by decide)).2 ("apple") (by decide) (by decide)

/-- C10: whenever Enter commits a selection (observable as a new selection
event), the committed value is an element of the current ResultSet; and
with a stale cursor at or beyond the end of the ResultSet and a ResultSet
not of length one, Enter commits nothing: no selection event is emitted and
the stored selection is unchanged. -/
theorem c10_commit_safety (s : AppState) :
    ((onKeyDown s Key.enter).emitted ≠ s.emitted →
        ∃ r : String, r ∈ s.results ∧
          (onKeyDown s Key.enter).emitted = s.emitted ++ [r] ∧
          (onKeyDown s Key.enter).selectedValue = some r)
    ∧ ((s.results.length : Int) ≤ s.selectedIndex → s.results.length ≠ 1 →
        (onKeyDown s Key.enter).emitted = s.emitted ∧
        (onKeyDown s Key.enter).selectedValue = s.selectedValue) := by
  constructor
  · intro hch
    unfold onKeyDown at hch ⊢
    by_cases hdrop : s.showDropdown = false ∧ (Key.enter = Key.arrowDown ∨ Key.enter = Key.enter)
    · rw [if_pos hdrop] at hch
      exact absurd rfl hch
    · rw [if_neg hdrop] at hch ⊢
      show ∃ r : String, r ∈ s.results ∧ (enterCommit s).emitted = s.emitted ++ [r] ∧
          (enterCommit s).selectedValue = some r
      replace hch : (enterCommit s).emitted ≠ s.emitted := hch
      unfold enterCommit at hch ⊢
      by_cases h1 : (resultAt s.results s.selectedIndex).getD ("") ≠ ""
      · rw [if_pos h1] at hch ⊢
        refine ⟨(resultAt s.results s.selectedIndex).getD (""), ?_, rfl, rfl⟩
        cases hr : resultAt s.results s.selectedIndex with
        | none => rw [hr] at h1; exact absurd rfl h1
        | some r =>
          show r ∈ s.results
          unfold resultAt at hr
          by_cases h0 : (0 : Int) ≤ s.selectedIndex
          · rw [if_pos h0] at hr
            exact List.get?_mem hr
          · rw [if_neg h0] at hr
            exact absurd hr (by simp)
      · rw [if_neg h1] at hch ⊢
        by_cases hlen : s.results.length = 1
        · rw [if_pos hlen] at hch ⊢
          refine ⟨(s.results.get? 0).getD (""), ?_, rfl, rfl⟩
          cases hr : s.results.get? 0 with
          | none =>
            rw [List.get?_eq_none] at hr
            omega
          | some r =>
            show r ∈ s.results
            exact List.get?_mem hr
        · rw [if_neg hlen] at hch
          exact absurd rfl hch
  · intro hstale hlen
    unfold onKeyDown
    by_cases hdrop : s.showDropdown = false ∧ (Key.enter = Key.arrowDown ∨ Key.enter = Key.enter)
    · rw [if_pos hdrop]
      exact ⟨rfl, rfl⟩
    · rw [if_neg hdrop]
      show (enterCommit s).emitted = s.emitted ∧ (enterCommit s).selectedValue = s.selectedValue
      have hnone : resultAt s.results s.selectedIndex = none := by
        unfold resultAt
        have h0 : (0 : Int) ≤ s.selectedIndex := by
          have : (0 : Int) ≤ (s.results.length : Int) := by omega
          omega
        rw [if_pos h0]
        rw [List.get?_eq_none]
        omega
      unfold enterCommit
      rw [if_neg (by rw [hnone]; simp), if_neg hlen]
      exact ⟨rfl, rfl⟩

/-- Witness for C10: Enter on a reached state with the cursor on the second
of two results commits that element of the ResultSet. -/
theorem c10_witness :
    ∃ r : String, r ∈ ({ initState with showDropdown := true, results := ["x", "y"], selectedIndex := 1 } : AppState).results ∧
      (onKeyDown { initState with showDropdown := true, results := ["x", "y"], selectedIndex := 1 } Key.enter).emitted =
        ({ initState with showDropdown := true, results := ["x", "y"], selectedIndex := 1 } : AppState).emitted ++ [r] ∧
      (onKeyDown { initState with showDropdown := true, results := ["x", "y"], selectedIndex := 1 } Key.enter).selectedValue = some r :=
  (c10_commit_safety _).1 (by decide)

theorem hlCore_hlRel (pat : List Char) (hp : pat ≠ []) :
    ∀ (fuel : Nat) (l : List Char), l.length ≤ fuel →
      HLRel pat l (hlCore fuel pat l) := by
  intro fuel
  induction fuel with
  | zero =>
    intro l hl
    have hnil : l = [] := List.eq_nil_of_length_eq_zero (Nat.le_zero.mp hl)
    subst hnil
    exact HLRel.nil
  | succ fuel ih =>
    intro l hl
    cases l with
    | nil => exact HLRel.nil
    | cons c rest =>
      have hrest : rest.length ≤ fuel := by
        simp only [List.length_cons] at hl
        omega
      by_cases hm : pat ≠ [] ∧ ciStartsWith pat (c :: rest) = true
      · have heq : hlCore (fuel + 1) pat (c :: rest)
            = mOpen ++ (c :: rest).take pat.length ++ mClose
              ++ hlCore fuel pat (rest.drop (pat.length - 1)) := by
          simp only [hlCore]
          rw [if_pos hm]
        rw [heq]
        have hp1 : pat.length = (pat.length - 1) + 1 := by
          cases pat with
          | nil => exact absurd rfl hm.1
          | cons a as => simp
        have hsplit : c :: rest
            = (c :: rest).take pat.length ++ rest.drop (pat.length - 1) := by
          conv_lhs => rw [← List.take_append_drop pat.length (c :: rest)]
          congr 1
          rw [hp1]
          exact List.drop_succ_cons
        have htake : (c :: rest).take pat.length = c :: rest.take (pat.length - 1) := by
          rw [hp1]
          exact List.take_succ_cons
        have hne : (c :: rest).take pat.length ≠ [] := by
          rw [htake]
          exact List.cons_ne_nil c _
        have hlow : lowerList ((c :: rest).take pat.length) = lowerList pat := by
          have hsw := hm.2
          unfold ciStartsWith at hsw
          exact eq_of_beq hsw
        have hdrop : (rest.drop (pat.length - 1)).length ≤ fuel := by
          rw [List.length_drop]
          omega
        have hwrap := @HLRel.wrap pat ((c :: rest).take pat.length)
          (rest.drop (pat.length - 1)) (hlCore fuel pat (rest.drop (pat.length - 1)))
          hne hlow (ih (rest.drop (pat.length - 1)) hdrop)
        rw [← hsplit] at hwrap
        exact hwrap
      · have heq : hlCore (fuel + 1) pat (c :: rest) = c :: hlCore fuel pat rest := by
          simp only [hlCore]
          rw [if_neg hm]
        rw [heq]
        have hsw : ciStartsWith pat (c :: rest) = false := by
          cases hsw : ciStartsWith pat (c :: rest) with
          | false => rfl
          | true => exact absurd ⟨hp, hsw⟩ hm
        exact HLRel.skip c rest _ hsw (ih rest hrest)

/-- Counterexample to C9: the utility does not wrap EVERY case-insensitive
occurrence of the query.  In the text aaa the pattern aa occurs both at
position 0 and at position 1, but the single left-to-right global scan
wraps only the occurrence at position 0 and copies the final character
bare, so the overlapping occurrence at position 1 is left unwrapped (its
second half, the last character of the text, lies outside every
marker). -/
theorem c9_counterexample :
    highlightMatch ("aaa") ("aa") = "<mark>aa</mark>a" ∧
    lowerList (("aaa").data.drop 1) = lowerList ("aa").data := by
  decide

/-- C9 as amended: a blank (empty or whitespace-only) query returns the
text unchanged; for a non-blank query, the output is a single left-to-right
scan of the text in which every position where a case-insensitive literal
occurrence of the query starts (the escaped pattern matches the query
literally) begins a wrapped occurrence, all other characters are copied
unchanged in order, and every wrapped segment is a non-empty
case-insensitive occurrence of the query; overlapping occurrences inside a
wrapped segment are not wrapped again. -/
theorem c9_amended (text term : String) :
    (isBlank term = true → highlightMatch text term = text)
    ∧ (isBlank term = false →
        HLRel term.data text.data (highlightMatch text term).data) := by
  constructor
  · intro h
    unfold highlightMatch
    rw [if_pos h]
  · intro h
    have hp : term.data ≠ [] := by
      intro hc
      unfold isBlank at h
      rw [hc] at h
      simp at h
    unfold highlightMatch
    rw [if_neg (by rw [h]; simp)]
    exact hlCore_hlRel term.data hp text.data.length text.data (Nat.le_refl _)

/-- Witness for the amended C9: the spec scenario — highlighting apple
against the query AP wraps the first two characters case-insensitively and
leaves the remainder unchanged, and the scan relation holds for that
pair. -/
theorem c9_witness :
    highlightMatch ("apple") ("AP") = "<mark>ap</mark>ple" ∧
    HLRel ("AP").data ("apple").data (highlightMatch ("apple") ("AP")).data :=
  ⟨by decide, (c9_amended ("apple") ("AP")).2 (by decide)⟩
